import Mathlib

/-!
Verification development for the CF-tgfile-mod worker (src/CF-tgfile-mod.js).

The worker is a file-hosting relay: uploads are stored in Telegram (the blob
backend), a metadata row per file is kept in a D1/SQLite table `files`
(the metadata index), and files are served back with an edge cache in front.

This file shallowly embeds the flows the claims are about:
* string helpers mirroring the JavaScript operations used by the worker
  (`split('.').pop()`, `toLowerCase()`, `String.prototype.includes`),
* the SQLite `LIKE ... ESCAPE '!'` matcher used by the search query,
* `getContentType` and the Telegram method/field classification,
* `authenticate`,
* the upload, search, retrieve (file fetch) and delete handlers.

External effects (Telegram calls, D1 statements, the edge cache, JSON/body
parsing) are modelled as explicit inputs describing their outcome; the
database table is a list of rows threaded through each handler.
-/

/-- JavaScript `haystack.includes(needle)` on lists of characters:
literal (case-sensitive) substring containment; the empty needle matches. -/
def listIncl (pat : List Char) : List Char → Bool
  | [] => pat.isEmpty
  | c :: rest => pat.isPrefixOf (c :: rest) || listIncl pat rest

/-- JavaScript `s.includes(pat)` on strings. -/
def strIncludes (s pat : String) : Bool :=
  listIncl pat.data s.data

/-- All suffixes of a list (including itself and `[]`). -/
def suffixes : List Char → List (List Char)
  | [] => [[]]
  | c :: rest => (c :: rest) :: suffixes rest

/-- SQLite `LIKE` pattern matching with `ESCAPE '!'`, as used by the worker's
search query (`WHERE file_name LIKE '%q%' ESCAPE '!'`): `%` matches any
character sequence, `_` matches exactly one character, `!c` matches the
character `c` literally, and comparison folds ASCII upper case to lower case
(SQLite's default case-insensitive `LIKE`). -/
def likeMatch : List Char → List Char → Bool
  | [], s => s.isEmpty
  | '%' :: ps, s => (suffixes s).any fun t => likeMatch ps t
  | '_' :: ps, s =>
    match s with
    | [] => false
    | _ :: t => likeMatch ps t
  | ['!'], _ => false
  | '!' :: p :: ps, s =>
    match s with
    | [] => false
    | c :: t => (c.toLower == p.toLower) && likeMatch ps t
  | p :: ps, s =>
    match s with
    | [] => false
    | c :: t => (c.toLower == p.toLower) && likeMatch ps t

/-- JavaScript `str.split(sep)` for a single-character separator:
`"" ↦ [""]`, `"a.b" ↦ ["a","b"]`, `"a." ↦ ["a",""]`. -/
def splitCh (sep : Char) : List Char → List (List Char)
  | [] => [[]]
  | c :: rest =>
    if c = sep then [] :: splitCh sep rest
    else
      match splitCh sep rest with
      | [] => [[c]]
      | h :: t => (c :: h) :: t

/-- The suffix of `l` after its last occurrence of `sep` (all of `l` when
`sep` does not occur). Used as the specification-side reading of
"the text after the last dot". -/
def afterLast (sep : Char) : List Char → List Char
  | [] => []
  | c :: rest =>
    if sep ∈ rest then afterLast sep rest
    else if c = sep then rest
    else c :: rest

/-- The worker's extension derivation
`(file.name.split('.').pop() || '').toLowerCase()` (line 116): last segment
of the dot-split, lower-cased (ASCII case folding, as in the source's usage). -/
def extOf (name : String) : String :=
  ⟨((splitCh '.' name.data).getLastD []).map Char.toLower⟩

/-- The extension table of `getContentType` (lines 344-355), in source order. -/
def mimeTable : List (String × String) :=
  [("jpg", "image/jpeg"), ("jpeg", "image/jpeg"), ("png", "image/png"),
   ("gif", "image/gif"), ("webp", "image/webp"), ("svg", "image/svg+xml"),
   ("icon", "image/x-icon"),
   ("mp4", "video/mp4"), ("webm", "video/webm"),
   ("mp3", "audio/mpeg"), ("wav", "audio/wav"), ("ogg", "audio/ogg"),
   ("pdf", "application/pdf"), ("txt", "text/plain"), ("md", "text/markdown"),
   ("zip", "application/zip"), ("rar", "application/x-rar-compressed"),
   ("json", "application/json"), ("xml", "application/xml"),
   ("ini", "text/plain"),
   ("js", "application/javascript"), ("yml", "application/yaml"),
   ("yaml", "application/yaml"),
   ("py", "text/x-python"), ("sh", "application/x-sh")]

/-- Function `getContentType` (lines 344-355): table lookup with
`application/octet-stream` as the default for unknown extensions. -/
def getContentType (ext : String) : String :=
  match mimeTable.find? fun p => p.1 == ext with
  | some p => p.2
  | none => "application/octet-stream"

/-- The MIME main type, `mimeType.split('/')[0]` (line 118). -/
def mimeMain (m : String) : String :=
  ⟨m.data.takeWhile fun c => c ≠ '/'⟩

/-- The `typeMap` object of the upload handler (lines 119-123). -/
def typeMapLookup (mainType : String) : Option (String × String) :=
  if mainType = "image" then some ("sendPhoto", "photo")
  else if mainType = "video" then some ("sendVideo", "video")
  else if mainType = "audio" then some ("sendAudio", "audio")
  else none

/-- The Telegram upload method/field chosen for an extension
(lines 116-125): `typeMap[mainType]` with `sendDocument`/`document` defaults,
plus the explicit override for the `application` and `text` families. -/
def classify (ext : String) : String × String :=
  let mime := getContentType ext
  let mainType := mimeMain mime
  let base := (typeMapLookup mainType).getD ("sendDocument", "document")
  if mainType = "application" ∨ mainType = "text" then
    ("sendDocument", "document")
  else base

/-- A row of the `files` table (schema at lines 13-23). `created_at` is the
stored timestamp; the source writes an ISO-like string of the instant
`now + 8h`, which orders identically to the numeric instant, so it is
modelled as a number. `file_name`, `file_size` and `mime_type` are nullable. -/
structure FileRecord where
  url : String
  fileId : String
  message_id : Nat
  created_at : Nat
  file_name : Option String
  file_size : Option Nat
  mime_type : Option String
deriving DecidableEq

/-- The body of an HTTP response produced by the handlers, one constructor
per JSON/text/HTML shape appearing in the source. -/
inductive Body where
  /-- plain-text body (the file handler's error texts) -/
  | text (s : String)
  /-- an HTML page -/
  | html (s : String)
  /-- a 302 redirect to `loc` -/
  | redirect (loc : String)
  /-- upload success `{status: 1, msg, url}` (line 152) -/
  | uploadOk (msg url : String)
  /-- upload failure `{status: 0, msg, error}` (line 157) -/
  | uploadFail (msg err : String)
  /-- delete success `{success, message}` (line 318) -/
  | deleteOk (success : Bool) (message : String)
  /-- JSON error `{error}` -/
  | jsonError (err : String)
  /-- search result `{files}` (line 247) -/
  | searchResults (files : List FileRecord)
  /-- a streamed file body with its headers (lines 279-287) -/
  | stream (contentType dispositionName bytes : String)
deriving DecidableEq

/-- An HTTP response: status code plus body. -/
structure Resp where
  status : Nat
  body : Body
deriving DecidableEq

/-! ## Authentication (lines 61-73) -/

/-- The data of a parsed `auth_token` cookie. `expiration` is `none` when the
JSON object has no `expiration` field (JavaScript `undefined`). -/
structure TokenData where
  username : String
  expiration : Option Int
deriving DecidableEq

/-- JavaScript `now > tokenData.expiration` (line 68): comparison against
`undefined` is `false` (NaN comparison), so a token without an expiration
field never counts as expired. -/
def jsNowGtExp (now : Int) : Option Int → Bool
  | some e => now > e
  | none => false

/-- The regex search `cookies.match(/auth_token=([^;]+)/)` (line 63): find the
first position where `auth_token=` is followed by at least one non-`;`
character and capture the maximal run of non-`;` characters; otherwise keep
scanning from the next position. -/
def extractAuthToken : List Char → Option (List Char)
  | [] => none
  | c :: rest =>
    if "auth_token=".data.isPrefixOf (c :: rest) then
      let tok := ((c :: rest).drop 11).takeWhile fun x => x ≠ ';'
      if tok = [] then extractAuthToken rest else some tok
    else extractAuthToken rest

/-- Function `authenticate` (lines 61-73). The runtime pair `atob` + `JSON.parse`
(line 66) is an external decoder; it is passed in as `decode`, returning
`none` when either step throws (the `catch` at line 70). The function is a
total `Bool`-valued function: every failure path returns `false`. -/
def authenticate (decode : List Char → Option TokenData) (now : Int)
    (cookieHeader : Option String) (cfgUsername : String) : Bool :=
  match extractAuthToken (cookieHeader.getD "").data with
  | none => false
  | some tok =>
    match decode tok with
    | none => false
    | some td =>
      if jsNowGtExp now td.expiration then false
      else td.username == cfgUsername

/-! ## Upload flow (lines 100-159) -/

/-- The uploaded file as seen by the handler (`formData.get('file')`):
display name, byte size, and the client-supplied MIME type
(`""` when absent, which is falsy in the source's `file.type || ...`). -/
structure UploadFile where
  name : String
  size : Nat
  type : String
deriving DecidableEq

/-- The `result` object of a successful Telegram send (lines 134-137).
Each `file_id` field collapses the optional chain `result?.X?.file_id`;
`photo` is the optional array of photo sizes, each with an optional id. -/
structure TgUploadResult where
  message_id : Option Nat
  document_file_id : Option String
  video_file_id : Option String
  audio_file_id : Option String
  photo : Option (List (Option String))
deriving DecidableEq

/-- Outcome of the Telegram store call (lines 131-134): either the `fetch`
itself threw (`isTypeError` records whether the thrown value was a
`TypeError`, as tested at line 156), or a response arrived with the given
`ok` flag and parsed `result` field. -/
inductive TgStore where
  | fetchThrow (isTypeError : Bool) (msg : String)
  | resp (ok : Bool) (result : Option TgUploadResult)
deriving DecidableEq

/-- JavaScript `a || b` on optional strings: the empty string is falsy. -/
def jsOr (a b : Option String) : Option String :=
  match a with
  | some s => if s = "" then b else some s
  | none => b

/-- The photo fallback
`result.photo && result.photo[result.photo.length-1]?.file_id`
(line 137): last element of the photo array, `none` for a missing or empty
array or a missing id. -/
def jsPhotoId : Option (List (Option String)) → Option String
  | none => none
  | some l =>
    match l.getLast? with
    | none => none
    | some x => x

/-- The file-id fallback chain of line 137 applied to `tgData.result`. -/
def tgFileIdOf (result : Option TgUploadResult) : Option String :=
  match result with
  | none => none
  | some r =>
    jsOr r.document_file_id
      (jsOr r.video_file_id (jsOr r.audio_file_id (jsPhotoId r.photo)))

/-- JavaScript truthiness of an optional string (`""` is falsy). -/
def isTruthyStr : Option String → Bool
  | some s => s != ""
  | none => false

/-- JavaScript truthiness of an optional number (`0` is falsy). -/
def isTruthyNat : Option Nat → Bool
  | some n => n != 0
  | none => false

/-- The errors the upload `try` block can throw, with the messages and
`instanceof TypeError` status the source gives them. -/
inductive UploadError where
  /-- message `未找到文件` (line 113) -/
  | noFile
  /-- message `Telegram参数配置错误` (line 132) -/
  | tgConfig
  /-- message `未获取到文件ID` (line 138) -/
  | noFileId
  /-- message `未获取到tg消息ID` (line 139) -/
  | noMessageId
  /-- the Telegram `fetch` (or response parsing) threw -/
  | netThrow (isTypeError : Bool) (msg : String)
  /-- the D1 `INSERT` threw with the given message -/
  | dbInsert (msg : String)
deriving DecidableEq

/-- The `error.message` of each upload error. -/
def UploadError.message : UploadError → String
  | .noFile => "未找到文件"
  | .tgConfig => "Telegram参数配置错误"
  | .noFileId => "未获取到文件ID"
  | .noMessageId => "未获取到tg消息ID"
  | .netThrow _ m => m
  | .dbInsert m => m

/-- The `error instanceof TypeError` test for each upload error: only a value thrown
by `fetch` can be a `TypeError`; the source's own `new Error(...)` throws
are plain `Error`s. -/
def UploadError.isTypeError : UploadError → Bool
  | .netThrow t _ => t
  | _ => false

/-- The status selection of the upload `catch` block (lines 154-156):
`502` when the message contains `Telegram参数配置错误`, else `504` when the
error is a `TypeError` whose message contains `Failed to fetch`, else `500`. -/
def uploadStatusCode (e : UploadError) : Nat :=
  if strIncludes e.message "Telegram参数配置错误" then 502
  else if e.isTypeError && strIncludes e.message "Failed to fetch" then 504
  else 500

/-- The row inserted by a successful upload (lines 141-150). -/
def mkUploadRecord (origin : String) (file : UploadFile) (fileId : String)
    (messageId : Nat) (now : Nat) : FileRecord :=
  { url := origin ++ "/" ++ toString now ++ "." ++ extOf file.name
    fileId := fileId
    message_id := messageId
    created_at := now + 8 * 60 * 60 * 1000
    file_name := some file.name
    file_size := some file.size
    mime_type :=
      some (if file.type = "" then getContentType (extOf file.name)
            else file.type) }

/-- The upload `try` block (lines 110-152): require a file, store it in
Telegram, extract the file id and message id, then insert the metadata row.
`tg` is the outcome of the Telegram call, `dbIns` is `some msg` when the D1
`INSERT` would throw with message `msg`. On success returns the table with
the new row appended together with the canonical URL. -/
def uploadCore (origin : String) (db : List FileRecord)
    (file? : Option UploadFile) (tg : TgStore) (now : Nat)
    (dbIns : Option String) : Except UploadError (List FileRecord × String) :=
  match file? with
  | none => .error .noFile
  | some file =>
    match tg with
    | .fetchThrow t m => .error (.netThrow t m)
    | .resp false _ => .error .tgConfig
    | .resp true result =>
      let fileId := tgFileIdOf result
      let messageId := result.bind TgUploadResult.message_id
      if !isTruthyStr fileId then .error .noFileId
      else if !isTruthyNat messageId then .error .noMessageId
      else
        match dbIns with
        | some m => .error (.dbInsert m)
        | none =>
          let record :=
            mkUploadRecord origin file (fileId.getD "") (messageId.getD 0) now
          .ok (db ++ [record], record.url)

/-- Handler `handleUploadRequest` (lines 100-159): auth redirect, the GET upload
page, then the `try`/`catch` around `uploadCore`. Returns the resulting
`files` table and the response. -/
def handleUploadRequest (enableAuth authed : Bool) (origin : String)
    (isGet : Bool) (db : List FileRecord) (file? : Option UploadFile)
    (tg : TgStore) (now : Nat) (dbIns : Option String) :
    List FileRecord × Resp :=
  if enableAuth && !authed then (db, ⟨302, .redirect (origin ++ "/")⟩)
  else if isGet then (db, ⟨200, .html "uploadPage"⟩)
  else
    match uploadCore origin db file? tg now dbIns with
    | .ok (db2, url) => (db2, ⟨200, .uploadOk "✔ 上传成功" url⟩)
    | .error e =>
      (db, ⟨uploadStatusCode e, .uploadFail "✘ 上传失败" e.message⟩)

/-- The store step failed as described by claim C1: the `fetch` threw, the
response was not ok, no truthy file id could be extracted, or no truthy
message id was present. -/
def tgStoreFailed : TgStore → Bool
  | .fetchThrow _ _ => true
  | .resp ok result =>
    !ok || !isTruthyStr (tgFileIdOf result)
      || !isTruthyNat (result.bind TgUploadResult.message_id)

/-! ## Search flow (lines 233-251) -/

/-- The `WHERE file_name LIKE ? ...` row filter: SQL `NULL LIKE pattern`
is `NULL`, so a row with a `NULL` `file_name` is never selected. -/
def likeRow (pat : List Char) : Option String → Bool
  | none => false
  | some n => likeMatch pat n.data

/-- Insert a row into a list sorted by `created_at` descending. -/
def insertByCreatedDesc (r : FileRecord) :
    List FileRecord → List FileRecord
  | [] => [r]
  | x :: xs =>
    if x.created_at < r.created_at then r :: x :: xs
    else x :: insertByCreatedDesc r xs

/-- The `ORDER BY created_at DESC` ordering as an insertion sort. -/
def sortByCreatedDesc : List FileRecord → List FileRecord
  | [] => []
  | x :: xs => insertByCreatedDesc x (sortByCreatedDesc xs)

/-- The search query of `handleSearchRequest` (lines 239-246):
`SELECT ... WHERE file_name LIKE '%' || query || '%' ESCAPE '!' COLLATE
NOCASE ORDER BY created_at DESC` over the modelled table. -/
def searchFiles (db : List FileRecord) (query : String) : List FileRecord :=
  sortByCreatedDesc
    (db.filter fun r => likeRow ('%' :: (query.data ++ ['%'])) r.file_name)

/-- Handler `handleSearchRequest` (lines 233-251): auth redirect, then the query;
`json` is the outcome of `request.json()` (`.error msg` when it throws,
caught at line 248). -/
def handleSearchRequest (enableAuth authed : Bool) (origin : String)
    (db : List FileRecord) (json : Except String String) : Resp :=
  if enableAuth && !authed then ⟨302, .redirect (origin ++ "/")⟩
  else
    match json with
    | .error m => ⟨500, .jsonError m⟩
    | .ok query => ⟨200, .searchResults (searchFiles db query)⟩

/-! ## Retrieve flow (lines 254-293) -/

/-- The environment of one `handleFileRequest` invocation: the edge cache's
answer for the request URL, whether some statement inside the `try` block
(after the cache check) throws and with what message, and the outcomes of
the two Telegram steps (`getFile`, byte fetch). -/
structure RetrieveEnv where
  cached : Option Resp
  exc : Option String
  getFileOk : Bool
  filePath : Option String
  fetchOk : Bool
  bytes : String
deriving DecidableEq

/-- Handler `handleFileRequest` (lines 254-293). Returns the response together with
the value stored into the edge cache (`cache.put`, line 288), `none` when no
caching happens. The `catch` at line 290 turns any exception into a fixed
`500 服务器内部错误` plain-text response that does not depend on the
exception's message. -/
def handleFileRequest (db : List FileRecord) (reqUrl : String)
    (env : RetrieveEnv) : Resp × Option Resp :=
  match env.cached with
  | some c => (c, none)
  | none =>
    match env.exc with
    | some _ => (⟨500, .text "服务器内部错误"⟩, none)
    | none =>
      match db.find? fun r => r.url == reqUrl with
      | none => (⟨404, .text "文件不存在"⟩, none)
      | some file =>
        if env.getFileOk = false then (⟨500, .text "获取文件失败"⟩, none)
        else
          match env.filePath with
          | none => (⟨404, .text "文件路径无效"⟩, none)
          | some _ =>
            if env.fetchOk = false then (⟨500, .text "下载文件失败"⟩, none)
            else
              let contentType :=
                match file.mime_type with
                | some s => if s = "" then getContentType (extOf reqUrl) else s
                | none => getContentType (extOf reqUrl)
              let resp : Resp :=
                ⟨200, .stream contentType (file.file_name.getD "") env.bytes⟩
              (resp, some resp)

/-! ## Delete flow (lines 296-322) -/

/-- Outcome of the Telegram `deleteMessage` call (lines 310-314): the fetch
threw, the response was ok, or the response was not ok with the given
`errorData.description`. -/
inductive TgDelete where
  | fetchThrow (msg : String)
  | respOk
  | respErr (description : String)
deriving DecidableEq

/-- The `deleteError` captured by the inner `try`/`catch` (lines 308-315):
`none` when the Telegram deletion succeeded, otherwise the caught message
(`Telegram 消息删除失败: <description>` for a non-ok response). -/
def tgDeleteError : TgDelete → Option String
  | .fetchThrow m => some m
  | .respOk => none
  | .respErr d => some ("Telegram 消息删除失败: " ++ d)

/-- The success-response message of line 318. -/
def deleteMsgOf : Option String → String
  | some e => "文件已从数据库删除，但Telegram消息删除失败: " ++ e
  | none => "文件删除成功"

/-- The message mapping of the outer `catch` (line 320). -/
def mapDeleteErr (m : String) : String :=
  if strIncludes m "message to delete not found" then "文件已从频道移除"
  else m

/-- Handler `handleDeleteRequest` (lines 296-322). `json` is the outcome of
`request.json()`; its `.ok` value is the `url` field (`none` when absent or
not a string). `delThrow` is `some msg` when the D1 `DELETE` would throw.
Returns the resulting `files` table and the response. -/
def handleDeleteRequest (enableAuth authed : Bool) (origin : String)
    (db : List FileRecord) (json : Except String (Option String))
    (tg : TgDelete) (delThrow : Option String) : List FileRecord × Resp :=
  if enableAuth && !authed then (db, ⟨302, .redirect (origin ++ "/")⟩)
  else
    match json with
    | .error m => (db, ⟨500, .jsonError (mapDeleteErr m)⟩)
    | .ok urlField =>
      match urlField with
      | none => (db, ⟨400, .jsonError "无效的URL"⟩)
      | some u =>
        if u = "" then (db, ⟨400, .jsonError "无效的URL"⟩)
        else
          match db.find? fun r => r.url == u with
          | none => (db, ⟨404, .jsonError "文件不存在"⟩)
          | some _ =>
            match delThrow with
            | some m => (db, ⟨500, .jsonError (mapDeleteErr m)⟩)
            | none =>
              (db.filter fun r => !(r.url == u),
               ⟨200, .deleteOk true (deleteMsgOf (tgDeleteError tg))⟩)

/-! ## Sample values used to instantiate theorems on concrete inputs -/

/-- A concrete stored row. -/
def sampleRecord : FileRecord :=
  ⟨"https://h/1.png", "fid", 2, 5, some "a.png", some 10, some "image/png"⟩

/-- A concrete decoder mapping the cookie token `GOOD` to an admin token
expiring at instant 100. -/
def sampleDecode : List Char → Option TokenData :=
  fun t => if t = "GOOD".data then some ⟨"admin", some 100⟩ else none

/-- A concrete upload payload. -/
def sampleUpload : UploadFile := ⟨"a.txt", 3, ""⟩

/-- A concrete successful Telegram send result. -/
def sampleTgResult : TgUploadResult := ⟨some 5, some "fid", none, none, none⟩

/-- Retrieve environment: cache hit. -/
def cacheHitEnv : RetrieveEnv :=
  ⟨some ⟨200, Body.text "cached"⟩, none, true, some "p", true, "b"⟩

/-- Retrieve environment: cache miss, an exception thrown downstream. -/
def excEnv : RetrieveEnv := ⟨none, some "boom", true, some "p", true, "b"⟩

/-- Retrieve environment: cache miss, all backend steps fine. -/
def missEnv : RetrieveEnv := ⟨none, none, true, some "p", true, "b"⟩

/-- Retrieve environment: the `getFile` call returns a non-ok response. -/
def getFileFailEnv : RetrieveEnv := ⟨none, none, false, some "p", true, "b"⟩

/-- Retrieve environment: `getFile` ok but no `file_path` in the response. -/
def noPathEnv : RetrieveEnv := ⟨none, none, true, none, true, "b"⟩

/-- Retrieve environment: the byte fetch returns a non-ok response. -/
def fetchFailEnv : RetrieveEnv := ⟨none, none, true, some "p", false, "b"⟩

/-- A row whose `file_name` is `abc`, used to refute the substring reading
of the search query. -/
def searchRecord : FileRecord := ⟨"https://h/1.txt", "f", 1, 0, some "abc", none, none⟩

/-- Modelled from the spec: the search matching the claim describes —
`fileName` contains the query as a case-insensitive substring, the empty
query matching every record including those with a `NULL` `fileName`. -/
def claimMatch (query : String) (r : FileRecord) : Bool :=
  match r.file_name with
  | some n => listIncl (query.data.map Char.toLower) (n.data.map Char.toLower)
  | none => query == ""

/-! ## Helper lemmas -/

theorem splitCh_ne_nil (sep : Char) (l : List Char) : splitCh sep l ≠ [] := by
  cases l with
  | nil => simp [splitCh]
  | cons c rest =>
    simp only [splitCh]
    split
    · simp
    · split <;> simp

theorem splitCh_of_not_mem (sep : Char) (l : List Char) (h : sep ∉ l) :
    splitCh sep l = [l] := by
  induction l with
  | nil => rfl
  | cons c rest ih =>
    have hc : c ≠ sep := fun hh => h (hh ▸ List.mem_cons_self c rest)
    have hr : sep ∉ rest := fun hh => h (List.mem_cons_of_mem c hh)
    simp only [splitCh, if_neg hc, ih hr]

theorem splitCh_length_of_mem (sep : Char) (l : List Char) (h : sep ∈ l) :
    2 ≤ (splitCh sep l).length := by
  induction l with
  | nil => cases h
  | cons c rest ih =>
    simp only [splitCh]
    by_cases hc : c = sep
    · rw [if_pos hc]
      have := splitCh_ne_nil sep rest
      have : 1 ≤ (splitCh sep rest).length := by
        cases hh : splitCh sep rest with
        | nil => exact absurd hh this
        | cons a t => simp
      simpa using this
    · rw [if_neg hc]
      have hmem : sep ∈ rest := by
        cases List.mem_cons.mp h with
        | inl hh => exact absurd hh.symm hc
        | inr hh => exact hh
      have h2 := ih hmem
      cases hh : splitCh sep rest with
      | nil => exact absurd hh (splitCh_ne_nil sep rest)
      | cons a t =>
        rw [hh] at h2
        simpa using h2

theorem getLastD_of_ne_nil {α : Type} (l : List α) (a b : α) (h : l ≠ []) :
    l.getLastD a = l.getLastD b := by
  cases l with
  | nil => exact absurd rfl h
  | cons x xs => rw [List.getLastD_cons, List.getLastD_cons]

theorem afterLast_of_not_mem (sep : Char) (l : List Char) (h : sep ∉ l) :
    afterLast sep l = l := by
  cases l with
  | nil => rfl
  | cons c rest =>
    have hc : c ≠ sep := fun hh => h (hh ▸ List.mem_cons_self c rest)
    have hr : sep ∉ rest := fun hh => h (List.mem_cons_of_mem c hh)
    simp [afterLast, hr, hc]

/-- The last segment of the dot-split is exactly the text after the last
separator occurrence. -/
theorem splitCh_getLastD_eq_afterLast (sep : Char) (l : List Char) :
    (splitCh sep l).getLastD [] = afterLast sep l := by
  induction l with
  | nil => rfl
  | cons c rest ih =>
    simp only [splitCh, afterLast]
    by_cases hc : c = sep
    · rw [if_pos hc]
      by_cases hm : sep ∈ rest
      · rw [if_pos hm, List.getLastD_cons, ih]
      · rw [if_neg hm, if_pos hc, List.getLastD_cons, ih,
          afterLast_of_not_mem sep rest hm]
    · rw [if_neg hc]
      by_cases hm : sep ∈ rest
      · rw [if_pos hm]
        cases hh : splitCh sep rest with
        | nil => exact absurd hh (splitCh_ne_nil sep rest)
        | cons a t =>
          have h2 := splitCh_length_of_mem sep rest hm
          rw [hh] at h2
          have ht : t ≠ [] := by
            cases t with
            | nil => simp at h2
            | cons b u => simp
          rw [hh, List.getLastD_cons] at ih
          rw [List.getLastD_cons, getLastD_of_ne_nil t (c :: a) a ht, ih]
      · rw [if_neg hm, if_neg hc, splitCh_of_not_mem sep rest hm]
        rfl

theorem find?_filter_none (u : String) (db : List FileRecord) :
    (db.filter fun r => !(r.url == u)).find? (fun r => r.url == u) = none := by
  rw [List.find?_eq_none]
  intro x hx
  have hk := (List.mem_filter.mp hx).2
  simp only [Bool.not_eq_true'] at hk
  simp [hk]

theorem insertByCreatedDesc_perm (r : FileRecord) (l : List FileRecord) :
    (insertByCreatedDesc r l).Perm (r :: l) := by
  induction l with
  | nil => exact List.Perm.refl _
  | cons x xs ih =>
    simp only [insertByCreatedDesc]
    split
    · exact List.Perm.refl _
    · exact (List.Perm.cons x ih).trans (List.Perm.swap r x xs)

theorem sortByCreatedDesc_perm (l : List FileRecord) :
    (sortByCreatedDesc l).Perm l := by
  induction l with
  | nil => exact List.Perm.refl _
  | cons x xs ih =>
    exact (insertByCreatedDesc_perm x (sortByCreatedDesc xs)).trans
      (List.Perm.cons x ih)

theorem insertByCreatedDesc_pairwise (r : FileRecord) (l : List FileRecord)
    (h : l.Pairwise fun a b => b.created_at ≤ a.created_at) :
    (insertByCreatedDesc r l).Pairwise
      fun a b => b.created_at ≤ a.created_at := by
  induction l with
  | nil => simp [insertByCreatedDesc]
  | cons x xs ih =>
    rcases List.pairwise_cons.mp h with ⟨hx, hxs⟩
    simp only [insertByCreatedDesc]
    split
    · rename_i hlt
      refine List.pairwise_cons.mpr ⟨?_, h⟩
      intro b hb
      cases List.mem_cons.mp hb with
      | inl hh => exact hh ▸ Nat.le_of_lt hlt
      | inr hh => exact Nat.le_trans (hx b hh) (Nat.le_of_lt hlt)
    · rename_i hge
      refine List.pairwise_cons.mpr ⟨?_, ih hxs⟩
      intro b hb
      have hmem := (insertByCreatedDesc_perm r xs).mem_iff.mp hb
      cases List.mem_cons.mp hmem with
      | inl hh => exact hh ▸ Nat.le_of_not_lt hge
      | inr hh => exact hx b hh

theorem sortByCreatedDesc_pairwise (l : List FileRecord) :
    (sortByCreatedDesc l).Pairwise
      fun a b => b.created_at ≤ a.created_at := by
  induction l with
  | nil => simp [sortByCreatedDesc]
  | cons x xs ih => exact insertByCreatedDesc_pairwise x _ ih

/-- The delete-success message equals `文件删除成功` exactly when the
Telegram deletion succeeded: both failure messages carry a strictly longer
fixed prefix. -/
theorem deleteMsg_success_iff (tg : TgDelete) :
    deleteMsgOf (tgDeleteError tg) = "文件删除成功" ↔ tg = .respOk := by
  cases tg with
  | respOk => simp [tgDeleteError, deleteMsgOf]
  | fetchThrow m =>
    simp only [tgDeleteError, deleteMsgOf]
    constructor
    · intro h
      have hl := congrArg String.length h
      rw [String.length_append] at hl
      have h6 : ("文件删除成功" : String).length = 6 := by decide
      have hp :
          6 < ("文件已从数据库删除，但Telegram消息删除失败: " : String).length := by
        decide
      omega
    · intro h
      exact absurd h (by simp)
  | respErr d =>
    simp only [tgDeleteError, deleteMsgOf]
    constructor
    · intro h
      have hl := congrArg String.length h
      rw [String.length_append] at hl
      have h6 : ("文件删除成功" : String).length = 6 := by decide
      have hp :
          6 < ("文件已从数据库删除，但Telegram消息删除失败: " : String).length := by
        decide
      omega
    · intro h
      exact absurd h (by simp)

/-- Inversion of a successful `uploadCore`: it can return `.ok` only when a
file was present, the Telegram response was ok, both ids were truthy, and
the insert did not throw; the resulting table is the old one with the new
row appended. -/
theorem uploadCore_ok_inv (origin : String) (db : List FileRecord)
    (file? : Option UploadFile) (tg : TgStore) (now : Nat)
    (dbIns : Option String) (db2 : List FileRecord) (url : String)
    (h : uploadCore origin db file? tg now dbIns = .ok (db2, url)) :
    ∃ file result, file? = some file ∧ tg = .resp true result ∧
      isTruthyStr (tgFileIdOf result) = true ∧
      isTruthyNat (result.bind TgUploadResult.message_id) = true ∧
      dbIns = none ∧
      db2 = db ++ [mkUploadRecord origin file ((tgFileIdOf result).getD "")
        ((result.bind TgUploadResult.message_id).getD 0) now] := by
  cases file? with
  | none => simp [uploadCore] at h
  | some file =>
    cases tg with
    | fetchThrow t m => simp [uploadCore] at h
    | resp ok result =>
      cases ok with
      | false => simp [uploadCore] at h
      | true =>
        simp only [uploadCore] at h
        split at h
        · exact absurd h (by simp)
        · split at h
          · exact absurd h (by simp)
          · rename_i hfid hmid
            cases dbIns with
            | some m => simp at h
            | none =>
              have hfid' : isTruthyStr (tgFileIdOf result) = true := by
                revert hfid
                cases isTruthyStr (tgFileIdOf result) <;> simp
              have hmid' :
                  isTruthyNat (result.bind TgUploadResult.message_id)
                    = true := by
                revert hmid
                cases isTruthyNat (result.bind TgUploadResult.message_id) <;>
                  simp
              simp only [Except.ok.injEq, Prod.mk.injEq] at h
              exact ⟨file, result, rfl, rfl, hfid', hmid', rfl, h.1.symm⟩

/-! ## Claim theorems -/

/-- Claim C5, counterexample: the filename `README` contains no dot, yet the
derived extension is `readme`, not the empty string — `split('.').pop()` on
a dot-free name returns the whole name. -/
theorem c5_counterexample : ('.' ∉ "README".data) ∧ extOf "README" ≠ "" := by
  decide

/-- Claim C5 (amended): the extension used for classification and for the
canonical URL is the lower-cased text after the last dot of the original
filename; when the filename contains no dot it is the whole filename
lower-cased (empty only when that is empty), not the empty string. -/
theorem c5_extension_amended (name : String) :
    extOf name = ⟨(afterLast '.' name.data).map Char.toLower⟩
    ∧ ('.' ∉ name.data → extOf name = ⟨name.data.map Char.toLower⟩) := by
  constructor
  · unfold extOf
    rw [splitCh_getLastD_eq_afterLast]
  · intro h
    unfold extOf
    rw [splitCh_getLastD_eq_afterLast, afterLast_of_not_mem _ _ h]

/-- Witness for C5's amended theorem at the dot-free filename `README`. -/
theorem c5_extension_amended_witness :
    ('.' ∉ "README".data)
    ∧ extOf "README" = ⟨"README".data.map Char.toLower⟩ :=
  ⟨by decide, (c5_extension_amended "README").2 (by decide)⟩

/-- Claim C6: the content classifier is a pure total function — every
extension outside the table maps to `application/octet-stream`, and the
MIME families `image`, `video`, `audio` select the specialized Telegram
method/field while every other family selects `sendDocument`/`document`. -/
theorem c6_classifier (ext : String) :
    ((∀ p ∈ mimeTable, p.1 ≠ ext) →
      getContentType ext = "application/octet-stream")
    ∧ (mimeMain (getContentType ext) = "image" →
        classify ext = ("sendPhoto", "photo"))
    ∧ (mimeMain (getContentType ext) = "video" →
        classify ext = ("sendVideo", "video"))
    ∧ (mimeMain (getContentType ext) = "audio" →
        classify ext = ("sendAudio", "audio"))
    ∧ (mimeMain (getContentType ext) ≠ "image" →
        mimeMain (getContentType ext) ≠ "video" →
        mimeMain (getContentType ext) ≠ "audio" →
        classify ext = ("sendDocument", "document")) := by
  refine ⟨?_, ?_, ?_, ?_, ?_⟩
  · intro h
    have hf : mimeTable.find? (fun p => p.1 == ext) = none := by
      rw [List.find?_eq_none]
      intro p hp
      simpa using h p hp
    unfold getContentType
    rw [hf]
  · intro h
    simp [classify, typeMapLookup, h]
  · intro h
    simp [classify, typeMapLookup, h]
  · intro h
    simp [classify, typeMapLookup, h]
  · intro h1 h2 h3
    simp only [classify, typeMapLookup, if_neg h1, if_neg h2, if_neg h3,
      Option.getD_none]
    split <;> rfl

/-- Witness for C6 at an unknown extension and at one extension per family. -/
theorem c6_classifier_witness :
    getContentType "exe" = "application/octet-stream"
    ∧ classify "jpg" = ("sendPhoto", "photo")
    ∧ classify "mp4" = ("sendVideo", "video")
    ∧ classify "mp3" = ("sendAudio", "audio")
    ∧ classify "pdf" = ("sendDocument", "document") :=
  ⟨(c6_classifier "exe").1 (by decide),
   (c6_classifier "jpg").2.1 (by decide),
   (c6_classifier "mp4").2.2.1 (by decide),
   (c6_classifier "mp3").2.2.2.1 (by decide),
   (c6_classifier "pdf").2.2.2.2 (by decide) (by decide) (by decide)⟩

/-- Claim C10: `authenticate` is total and fail-closed — no extractable
`auth_token` cookie, a token the runtime decoder rejects, an expired token,
or a username differing from the configured one all yield `false`, and
`true` implies the token extracted, decoded, is unexpired (in the source's
`now > expiration` sense) and carries the configured username. Totality is
by construction: the embedding is a total `Bool`-valued function whose every
branch returns a value. -/
theorem c10_authenticate (decode : List Char → Option TokenData) (now : Int)
    (ck : Option String) (u : String) :
    (extractAuthToken (ck.getD "").data = none →
      authenticate decode now ck u = false)
    ∧ (∀ tok, extractAuthToken (ck.getD "").data = some tok →
        decode tok = none → authenticate decode now ck u = false)
    ∧ (∀ tok td e, extractAuthToken (ck.getD "").data = some tok →
        decode tok = some td → td.expiration = some e → now > e →
        authenticate decode now ck u = false)
    ∧ (∀ tok td, extractAuthToken (ck.getD "").data = some tok →
        decode tok = some td → td.username ≠ u →
        authenticate decode now ck u = false)
    ∧ (authenticate decode now ck u = true →
        ∃ tok td, extractAuthToken (ck.getD "").data = some tok ∧
          decode tok = some td ∧ jsNowGtExp now td.expiration = false ∧
          td.username = u) := by
  refine ⟨?_, ?_, ?_, ?_, ?_⟩
  · intro h
    simp [authenticate, h]
  · intro tok h1 h2
    simp [authenticate, h1, h2]
  · intro tok td e h1 h2 h3 h4
    simp [authenticate, h1, h2, jsNowGtExp, h3, h4]
  · intro tok td h1 h2 h3
    simp only [authenticate, h1, h2]
    split
    · rfl
    · simp [h3]
  · intro h
    cases hE : extractAuthToken (ck.getD "").data with
    | none => simp [authenticate, hE] at h
    | some tok =>
      cases hD : decode tok with
      | none => simp [authenticate, hE, hD] at h
      | some td =>
        simp only [authenticate, hE, hD] at h
        by_cases hX : jsNowGtExp now td.expiration = true
        · rw [if_pos hX] at h
          exact absurd h (by simp)
        · rw [if_neg hX] at h
          exact ⟨tok, td, rfl, hD, Bool.eq_false_iff.mpr hX, beq_iff_eq.mp h⟩

/-- Witness for C10: an expired concrete token is rejected. -/
theorem c10_authenticate_witness :
    authenticate sampleDecode 200 (some "auth_token=GOOD") "admin" = false :=
  (c10_authenticate sampleDecode 200 (some "auth_token=GOOD") "admin").2.2.1
    "GOOD".data ⟨"admin", some 100⟩ 100 (by decide) (by decide) rfl (by decide)

/-- Claim C4: when the edge cache holds a response for the request URL, that
response is returned verbatim with no cache write; the result does not
depend on the metadata table (quantified arbitrarily, so it holds even when
the record has been deleted) nor on any backend outcome in `env`. -/
theorem c4_cache_precedence (db : List FileRecord) (reqUrl : String)
    (env : RetrieveEnv) (r : Resp) (h : env.cached = some r) :
    handleFileRequest db reqUrl env = (r, none) := by
  unfold handleFileRequest
  rw [h]

/-- Witness for C4: a concrete cache hit over an empty metadata table. -/
theorem c4_cache_precedence_witness :
    handleFileRequest [] "https://h/1.png" cacheHitEnv =
      (⟨200, Body.text "cached"⟩, none) :=
  c4_cache_precedence [] "https://h/1.png" cacheHitEnv
    ⟨200, Body.text "cached"⟩ rfl

/-- Claim C7: retrieve-flow error mapping on a cache miss — absent record
`404 文件不存在`; non-ok `getFile` `500 获取文件失败`; missing transient
path `404 文件路径无效`; failed byte fetch `500 下载文件失败`; and any
exception a fixed `500 服务器内部错误` that does not depend on the
exception's message (no internal error text reaches the client). -/
theorem c7_retrieve_error_mapping (db : List FileRecord) (reqUrl : String)
    (env : RetrieveEnv) (hc : env.cached = none) :
    (∀ m, env.exc = some m →
      handleFileRequest db reqUrl env = (⟨500, .text "服务器内部错误"⟩, none))
    ∧ (env.exc = none → db.find? (fun x => x.url == reqUrl) = none →
      handleFileRequest db reqUrl env = (⟨404, .text "文件不存在"⟩, none))
    ∧ (∀ f, env.exc = none → db.find? (fun x => x.url == reqUrl) = some f →
      env.getFileOk = false →
      handleFileRequest db reqUrl env = (⟨500, .text "获取文件失败"⟩, none))
    ∧ (∀ f, env.exc = none → db.find? (fun x => x.url == reqUrl) = some f →
      env.getFileOk = true → env.filePath = none →
      handleFileRequest db reqUrl env = (⟨404, .text "文件路径无效"⟩, none))
    ∧ (∀ f p, env.exc = none → db.find? (fun x => x.url == reqUrl) = some f →
      env.getFileOk = true → env.filePath = some p → env.fetchOk = false →
      handleFileRequest db reqUrl env = (⟨500, .text "下载文件失败"⟩, none)) := by
  refine ⟨?_, ?_, ?_, ?_, ?_⟩
  · intro m h
    simp [handleFileRequest, hc, h]
  · intro h1 h2
    simp [handleFileRequest, hc, h1, h2]
  · intro f h1 h2 h3
    simp [handleFileRequest, hc, h1, h2, h3]
  · intro f h1 h2 h3 h4
    simp [handleFileRequest, hc, h1, h2, h3, h4]
  · intro f p h1 h2 h3 h4 h5
    simp [handleFileRequest, hc, h1, h2, h3, h4, h5]

/-- Witness for C7: each error branch at concrete environments. -/
theorem c7_retrieve_error_mapping_witness :
    handleFileRequest [] "https://h/1.png" excEnv =
      (⟨500, Body.text "服务器内部错误"⟩, none)
    ∧ handleFileRequest [] "https://h/1.png" missEnv =
      (⟨404, Body.text "文件不存在"⟩, none)
    ∧ handleFileRequest [sampleRecord] "https://h/1.png" getFileFailEnv =
      (⟨500, Body.text "获取文件失败"⟩, none)
    ∧ handleFileRequest [sampleRecord] "https://h/1.png" noPathEnv =
      (⟨404, Body.text "文件路径无效"⟩, none)
    ∧ handleFileRequest [sampleRecord] "https://h/1.png" fetchFailEnv =
      (⟨500, Body.text "下载文件失败"⟩, none) :=
  ⟨(c7_retrieve_error_mapping [] "https://h/1.png" excEnv rfl).1 "boom" rfl,
   (c7_retrieve_error_mapping [] "https://h/1.png" missEnv rfl).2.1 rfl
     (by decide),
   (c7_retrieve_error_mapping [sampleRecord] "https://h/1.png" getFileFailEnv
     rfl).2.2.1 sampleRecord rfl (by decide) rfl,
   (c7_retrieve_error_mapping [sampleRecord] "https://h/1.png" noPathEnv
     rfl).2.2.2.1 sampleRecord rfl (by decide) rfl rfl,
   (c7_retrieve_error_mapping [sampleRecord] "https://h/1.png" fetchFailEnv
     rfl).2.2.2.2 sampleRecord "p" rfl (by decide) rfl rfl rfl⟩

/-- Claim C2, counterexample: the query `_` is a SQL `LIKE` wildcard, not a
literal character — the search returns the record named `abc` although
`abc` does not contain `_` as a (case-insensitive) substring, refuting the
claimed literal-substring semantics. -/
theorem c2_counterexample :
    searchFiles [searchRecord] "_" = [searchRecord]
    ∧ claimMatch "_" searchRecord = false := by
  constructor
  · decide
  · decide

/-- Claim C2 (amended): for every table and query, the search flow returns
exactly the records whose `file_name` is non-`NULL` and matches the SQLite
`LIKE` pattern `%query%` with escape `!` (ASCII-case-insensitively, `%` and
`_` acting as wildcards — not literal substring match), ordered by
`created_at` descending; rows with a `NULL` `file_name` are never returned,
even for the empty query. -/
theorem c2_search_characterization (db : List FileRecord) (query : String) :
    (searchFiles db query).Pairwise (fun a b => b.created_at ≤ a.created_at)
    ∧ (searchFiles db query).Perm
        (db.filter fun r => likeRow ('%' :: (query.data ++ ['%'])) r.file_name)
    ∧ ∀ r : FileRecord, r ∈ searchFiles db query ↔
        (r ∈ db ∧
          likeRow ('%' :: (query.data ++ ['%'])) r.file_name = true) := by
  refine ⟨sortByCreatedDesc_pairwise _, sortByCreatedDesc_perm _, ?_⟩
  intro r
  rw [searchFiles, (sortByCreatedDesc_perm _).mem_iff, List.mem_filter]

/-- Claim C3: once the record exists and the index deletion succeeds, the
record is removed from the table regardless of the Telegram outcome, the
response is `200` with `success: true`, and the message text equals
`文件删除成功` exactly when the Telegram-side deletion succeeded. -/
theorem c3_delete_partial_failure (enableAuth authed : Bool)
    (origin u : String) (db : List FileRecord) (tg : TgDelete)
    (hauth : (enableAuth && !authed) = false) (hu : u ≠ "")
    (hmem : (db.find? fun r => r.url == u).isSome = true) :
    handleDeleteRequest enableAuth authed origin db (.ok (some u)) tg none =
      (db.filter fun r => !(r.url == u),
       ⟨200, .deleteOk true (deleteMsgOf (tgDeleteError tg))⟩)
    ∧ (deleteMsgOf (tgDeleteError tg) = "文件删除成功" ↔ tg = .respOk) := by
  refine ⟨?_, deleteMsg_success_iff tg⟩
  obtain ⟨f, hf⟩ := Option.isSome_iff_exists.mp hmem
  simp [handleDeleteRequest, hauth, hu, hf]

/-- Witness for C3 at a concrete table and a failing Telegram deletion. -/
theorem c3_delete_partial_failure_witness :
    handleDeleteRequest false true "https://h" [sampleRecord]
        (.ok (some "https://h/1.png")) (.respErr "gone") none =
      ([sampleRecord].filter fun r => !(r.url == "https://h/1.png"),
       ⟨200, .deleteOk true (deleteMsgOf (tgDeleteError (.respErr "gone")))⟩)
    ∧ (deleteMsgOf (tgDeleteError (.respErr "gone")) = "文件删除成功"
        ↔ TgDelete.respErr "gone" = TgDelete.respOk) :=
  c3_delete_partial_failure false true "https://h" "https://h/1.png"
    [sampleRecord] (.respErr "gone") (by decide) (by decide) (by decide)

/-- Claim C8: running the delete flow twice on the same (authorized,
non-empty) URL with a working index yields `404 文件不存在` on the second
call and leaves the table of the first call unchanged, whatever the two
Telegram outcomes were. -/
theorem c8_delete_idempotent (enableAuth authed : Bool) (origin u : String)
    (db : List FileRecord) (tg1 tg2 : TgDelete)
    (hauth : (enableAuth && !authed) = false) (hu : u ≠ "") :
    handleDeleteRequest enableAuth authed origin
        (handleDeleteRequest enableAuth authed origin db (.ok (some u)) tg1
          none).1
        (.ok (some u)) tg2 none =
      ((handleDeleteRequest enableAuth authed origin db (.ok (some u)) tg1
          none).1,
       ⟨404, .jsonError "文件不存在"⟩) := by
  cases hf : db.find? fun r => r.url == u with
  | none =>
    have h1 : (handleDeleteRequest enableAuth authed origin db (.ok (some u))
        tg1 none).1 = db := by
      simp [handleDeleteRequest, hauth, hu, hf]
    rw [h1]
    simp [handleDeleteRequest, hauth, hu, hf]
  | some f =>
    have h1 : (handleDeleteRequest enableAuth authed origin db (.ok (some u))
        tg1 none).1 = db.filter fun r => !(r.url == u) := by
      simp [handleDeleteRequest, hauth, hu, hf]
    rw [h1]
    simp [handleDeleteRequest, hauth, hu, find?_filter_none u db]

/-- Witness for C8 at a concrete one-row table. -/
theorem c8_delete_idempotent_witness :
    handleDeleteRequest false true "https://h"
        (handleDeleteRequest false true "https://h" [sampleRecord]
          (.ok (some "https://h/1.png")) .respOk none).1
        (.ok (some "https://h/1.png")) (.respErr "gone") none =
      ((handleDeleteRequest false true "https://h" [sampleRecord]
          (.ok (some "https://h/1.png")) .respOk none).1,
       ⟨404, .jsonError "文件不存在"⟩) :=
  c8_delete_idempotent false true "https://h" "https://h/1.png" [sampleRecord]
    .respOk (.respErr "gone") (by decide) (by decide)

/-- Claim C1: upload atomicity — if the Telegram store step fails (thrown
fetch, non-ok response, missing truthy file id or message id) the `files`
table is unchanged, and the table changes only by appending the one new row
after a fully successful store with both ids present and a non-throwing
insert. -/
theorem c1_upload_atomicity (enableAuth authed : Bool) (origin : String)
    (isGet : Bool) (db : List FileRecord) (file? : Option UploadFile)
    (tg : TgStore) (now : Nat) (dbIns : Option String) :
    (tgStoreFailed tg = true →
      (handleUploadRequest enableAuth authed origin isGet db file? tg now
        dbIns).1 = db)
    ∧ ((handleUploadRequest enableAuth authed origin isGet db file? tg now
        dbIns).1 ≠ db →
      ∃ file result, file? = some file ∧ tg = .resp true result ∧
        isTruthyStr (tgFileIdOf result) = true ∧
        isTruthyNat (result.bind TgUploadResult.message_id) = true ∧
        dbIns = none ∧
        (handleUploadRequest enableAuth authed origin isGet db file? tg now
          dbIns).1 =
          db ++ [mkUploadRecord origin file ((tgFileIdOf result).getD "")
            ((result.bind TgUploadResult.message_id).getD 0) now]) := by
  constructor
  · intro hfail
    by_cases hA : (enableAuth && !authed) = true
    · simp [handleUploadRequest, hA]
    · have hA' : (enableAuth && !authed) = false := Bool.eq_false_iff.mpr hA
      by_cases hG : isGet = true
      · simp [handleUploadRequest, hA', hG]
      · have hG' : isGet = false := Bool.eq_false_iff.mpr hG
        cases hco : uploadCore origin db file? tg now dbIns with
        | error e => simp [handleUploadRequest, hA', hG', hco]
        | ok pr =>
          obtain ⟨db2, url⟩ := pr
          obtain ⟨file, result, hf, htg, hfid, hmid, hdb, hd2⟩ :=
            uploadCore_ok_inv origin db file? tg now dbIns db2 url hco
          subst htg
          simp [tgStoreFailed, hfid, hmid] at hfail
  · intro hne
    by_cases hA : (enableAuth && !authed) = true
    · exact absurd (by simp [handleUploadRequest, hA]) hne
    · have hA' : (enableAuth && !authed) = false := Bool.eq_false_iff.mpr hA
      by_cases hG : isGet = true
      · exact absurd (by simp [handleUploadRequest, hA', hG]) hne
      · have hG' : isGet = false := Bool.eq_false_iff.mpr hG
        cases hco : uploadCore origin db file? tg now dbIns with
        | error e =>
          exact absurd (by simp [handleUploadRequest, hA', hG', hco]) hne
        | ok pr =>
          obtain ⟨db2, url⟩ := pr
          obtain ⟨file, result, hf, htg, hfid, hmid, hdb, hd2⟩ :=
            uploadCore_ok_inv origin db file? tg now dbIns db2 url hco
          refine ⟨file, result, hf, htg, hfid, hmid, hdb, ?_⟩
          rw [show (handleUploadRequest enableAuth authed origin isGet db
              file? tg now dbIns).1 = db2 by
            simp [handleUploadRequest, hA', hG', hco]]
          exact hd2

/-- Witness for C1: a failed store leaves the (empty) table empty, and a
fully successful store appends exactly the new row. -/
theorem c1_upload_atomicity_witness :
    (handleUploadRequest false true "https://h" false [] (some sampleUpload)
      (.resp false none) 0 none).1 = []
    ∧ ∃ file result, some sampleUpload = some file ∧
        TgStore.resp true (some sampleTgResult) = .resp true result ∧
        isTruthyStr (tgFileIdOf result) = true ∧
        isTruthyNat (result.bind TgUploadResult.message_id) = true ∧
        (none : Option String) = none ∧
        (handleUploadRequest false true "https://h" false []
          (some sampleUpload) (.resp true (some sampleTgResult)) 0 none).1 =
          [] ++ [mkUploadRecord "https://h" file
            ((tgFileIdOf result).getD "")
            ((result.bind TgUploadResult.message_id).getD 0) 0] :=
  ⟨(c1_upload_atomicity false true "https://h" false [] (some sampleUpload)
      (.resp false none) 0 none).1 (by decide),
   (c1_upload_atomicity false true "https://h" false [] (some sampleUpload)
      (.resp true (some sampleTgResult)) 0 none).2 (by decide)⟩

/-- Claim C9, counterexample: when the D1 `INSERT` throws with a message
containing `Telegram参数配置错误`, the catch block's substring test selects
status `502`, although the claim requires `500` for an index insert
failure. -/
theorem c9_counterexample :
    (handleUploadRequest false true "https://h" false [] (some sampleUpload)
      (.resp true (some sampleTgResult)) 0
      (some "D1_ERROR: Telegram参数配置错误")).2.status = 502
    ∧ (handleUploadRequest false true "https://h" false [] (some sampleUpload)
      (.resp true (some sampleTgResult)) 0
      (some "D1_ERROR: Telegram参数配置错误")).2.status ≠ 500 := by
  constructor
  · decide
  · decide

/-- Claim C9 (amended): the upload failure status is selected by message
content, not by error kind — `502` whenever the message contains
`Telegram参数配置错误` (always the case for a non-ok store response, but
also for any other error whose message contains that phrase, e.g. an index
insert failure), otherwise `504` for a `TypeError` whose message contains
`Failed to fetch`, otherwise `500` (in particular for missing file, missing
file id, missing message id, and insert failures without the phrase); the
error message is included in the JSON failure body. -/
theorem c9_status_amended (enableAuth authed : Bool) (origin : String)
    (isGet : Bool) (db : List FileRecord) (file? : Option UploadFile)
    (tg : TgStore) (now : Nat) (dbIns : Option String) (e : UploadError)
    (hA : (enableAuth && !authed) = false) (hG : isGet = false) :
    (uploadCore origin db file? tg now dbIns = .error e →
      (handleUploadRequest enableAuth authed origin isGet db file? tg now
        dbIns).2 =
        ⟨uploadStatusCode e, .uploadFail "✘ 上传失败" e.message⟩)
    ∧ uploadStatusCode .tgConfig = 502
    ∧ uploadStatusCode .noFile = 500
    ∧ uploadStatusCode .noFileId = 500
    ∧ uploadStatusCode .noMessageId = 500
    ∧ (∀ m, strIncludes m "Telegram参数配置错误" = false →
        strIncludes m "Failed to fetch" = true →
        uploadStatusCode (.netThrow true m) = 504)
    ∧ (∀ m, strIncludes m "Telegram参数配置错误" = false →
        uploadStatusCode (.dbInsert m) = 500)
    ∧ (∀ m, strIncludes m "Telegram参数配置错误" = true →
        uploadStatusCode (.dbInsert m) = 502) := by
  refine ⟨?_, by decide, by decide, by decide, by decide, ?_, ?_, ?_⟩
  · intro h
    simp [handleUploadRequest, hA, hG, h]
  · intro m h1 h2
    simp [uploadStatusCode, UploadError.message, UploadError.isTypeError,
      h1, h2]
  · intro m h1
    simp [uploadStatusCode, UploadError.message, UploadError.isTypeError, h1]
  · intro m h1
    simp [uploadStatusCode, UploadError.message, h1]

/-- Witness for C9's amended theorem: a non-ok store response produces the
`502`/message failure response through the full handler. -/
theorem c9_status_amended_witness :
    (handleUploadRequest false true "https://h" false [] (some sampleUpload)
      (.resp false none) 0 none).2 =
      ⟨uploadStatusCode .tgConfig,
       .uploadFail "✘ 上传失败" (UploadError.message .tgConfig)⟩ :=
  (c9_status_amended false true "https://h" false [] (some sampleUpload)
    (.resp false none) 0 none .tgConfig rfl rfl).1 rfl
